import Mathlib

/-!
Shallow embedding of the search widget in src/src/App.tsx.

The component state mirrors the useState hooks (App.tsx lines 26-32), and each
operation below mirrors one event handler or effect of the component.  The two
HTTP endpoints are opaque collaborators: their possible answers are modelled as
explicit outcome values fed to the handler that consumes them.
-/

/-- Mirror of the RobloxUser interface (App.tsx lines 5-11). -/
structure RobloxUser where
  previousUsernames : List String
  hasVerifiedBadge : Bool
  id : Nat
  name : String
  displayName : String
deriving DecidableEq

/-- Mirror of SearchResponse (App.tsx lines 13-15).  The data field is optional
because line 93 guards against its absence with a default. -/
structure SearchResponse where
  data : Option (List RobloxUser)
deriving DecidableEq

/-- One entry of ThumbnailResponse.data (App.tsx lines 17-23). -/
structure ThumbItem where
  targetId : Nat
  state : String
  imageUrl : String
deriving DecidableEq

/-- Mirror of ThumbnailResponse (App.tsx lines 17-23). -/
structure ThumbnailResponse where
  data : List ThumbItem
deriving DecidableEq

/-- A thrown JavaScript value as discriminated by the catch at line 99:
either an Error instance carrying a message, or any other thrown value. -/
inductive JsError where
  | error (message : String)
  | nonError
deriving DecidableEq

/-- The message the catch block at lines 98-100 derives from a thrown value. -/
def jsErrorMessage : JsError → String
  | JsError.error m => m
  | JsError.nonError => "An unknown error occurred"

/-- Possible answers of the search endpoint as the code at lines 79-92 can
observe them: either the fetch promise rejects, or a response with a numeric
status and a parsed body arrives. -/
inductive SearchOutcome where
  | reject (e : JsError)
  | respond (status : Nat) (body : SearchResponse)

/-- response.ok for a numeric status: true exactly for 2xx statuses. -/
def httpOk (status : Nat) : Bool :=
  decide (200 ≤ status) && decide (status < 300)

/-- Possible answers of the thumbnail endpoint as observed at lines 48-50:
rejection, or a response with its ok flag and parsed body. -/
inductive AvatarOutcome where
  | reject (e : JsError)
  | respond (ok : Bool) (body : ThumbnailResponse)

/-- The component state: one field per useState hook (App.tsx lines 26-32).
avatarUrls models the Record from user id to image URL as a partial map. -/
structure AppState where
  query : String
  users : List RobloxUser
  isLoading : Bool
  error : Option String
  showDropdown : Bool
  selectedUser : Option RobloxUser
  avatarUrls : Nat → Option String

/-- The initial state of every hook (lines 26-32). -/
def initState : AppState where
  query := ""
  users := []
  isLoading := false
  error := none
  showDropdown := false
  selectedUser := none
  avatarUrls := fun _ => none

/-- Percent-encoding helpers modelling encodeURIComponent (used at line 80). -/
def hexDigit (n : Nat) : Char :=
  if n < 10 then Char.ofNat (48 + n) else Char.ofNat (55 + n)

/-- UTF-8 bytes of a Unicode scalar value. -/
def utf8Bytes (n : Nat) : List Nat :=
  if n < 128 then [n]
  else if n < 2048 then [192 + n / 64, 128 + n % 64]
  else if n < 65536 then [224 + n / 4096, 128 + (n / 64) % 64, 128 + n % 64]
  else [240 + n / 262144, 128 + (n / 4096) % 64, 128 + (n / 64) % 64, 128 + n % 64]

/-- Characters encodeURIComponent leaves untouched: letters, digits, and
the unreserved marks - _ . ! ~ * quote ( ). -/
def isUnreserved (c : Char) : Bool :=
  c.isAlpha || c.isDigit ||
    ([Char.ofNat 45, Char.ofNat 95, Char.ofNat 46, Char.ofNat 33, Char.ofNat 126,
      Char.ofNat 42, Char.ofNat 39, Char.ofNat 40, Char.ofNat 41].contains c)

/-- Percent-encode one character as its UTF-8 bytes in %XX form. -/
def percentEncodeChar (c : Char) : String :=
  String.mk ((utf8Bytes c.toNat).foldr
    (fun b acc => Char.ofNat 37 :: hexDigit (b / 16) :: hexDigit (b % 16) :: acc) [])

/-- Model of JavaScript encodeURIComponent as invoked at line 80. -/
def encodeURIComponent (s : String) : String :=
  String.join (s.data.map (fun c => if isUnreserved c then String.singleton c else percentEncodeChar c))

/-- The URL the search effect requests at line 80: keyword is the raw query
passed through encodeURIComponent, limit is fixed at 10. -/
def searchUrl (q : String) : String :=
  "/api/v1/users/search?keyword=" ++ encodeURIComponent q ++ "&limit=10"

/-- The request the search cycle issues for a captured query: none when the
guard at line 69 returns early, otherwise the GET of line 80. -/
def searchRequestOf (q : String) : Option String :=
  if q.length < 2 then none else some (searchUrl q)

/-- The URL fetchAvatarUrls requests at line 48: all ids comma-joined, fixed
size 150x150 and format Png. -/
def avatarRequestUrl (userIds : List Nat) : String :=
  "https://thumbnails.roblox.com/v1/users/avatar-headshot?userIds=" ++
    String.intercalate "," (userIds.map toString) ++ "&size=150x150&format=Png"

/-- Everything one run of searchUsers (lines 68-106) produces: the state after
all its setState calls, the search request it issued (if any), and the id list
it handed to fetchAvatarUrls (if any). -/
structure SearchCycleResult where
  state : AppState
  request : Option String
  avatarRequest : Option (List Nat)

/-- One run of searchUsers (lines 68-106) for the query captured by the effect
closure, applied to the state current when its setState calls land.
Line 69: queries shorter than 2 characters clear users and error and return.
Lines 75-76: isLoading becomes true and error is cleared; line 104 resets
isLoading in the finally block, so the net cycle leaves isLoading false.
Lines 88-90: a non-2xx status throws with an HTTP error message.
Lines 92-97: on success users is replaced by data (or empty when absent),
fetchAvatarUrls is called when data is non-empty, and showDropdown becomes
true.  Lines 98-102: any failure stores the derived message and clears users;
showDropdown is not touched on failure. -/
def runSearch (q : String) (s : AppState) (o : SearchOutcome) : SearchCycleResult :=
  if q.length < 2 then
    { state := { s with users := [], error := none }
      request := none
      avatarRequest := none }
  else
    match o with
    | SearchOutcome.reject e =>
        { state := { s with isLoading := false, error := some (jsErrorMessage e), users := [] }
          request := some (searchUrl q)
          avatarRequest := none }
    | SearchOutcome.respond status body =>
        if httpOk status then
          { state := { s with isLoading := false, error := none,
                              users := body.data.getD [], showDropdown := true }
            request := some (searchUrl q)
            avatarRequest :=
              match body.data with
              | some l => if 0 < l.length then some (l.map (fun u => u.id)) else none
              | none => none }
        else
          { state := { s with isLoading := false,
                              error := some ("HTTP error! status: " ++ toString status),
                              users := [] }
            request := some (searchUrl q)
            avatarRequest := none }

/-- One step of the reduce at lines 51-54: record the entry for one item,
shadowing any earlier entry for the same targetId. -/
def updEntry (acc : Nat → Option String) (item : ThumbItem) : Nat → Option String :=
  fun id => if id = item.targetId then some item.imageUrl else acc id

/-- The newUrls object built at lines 51-54: later items overwrite earlier
ones for the same targetId. -/
def buildNewUrls (items : List ThumbItem) : Nat → Option String :=
  items.foldl updEntry (fun _ => none)

/-- The object spread at line 55: entries of newUrls shadow entries of the
previous cache, every other entry of the previous cache survives. -/
def mergeUrls (prev newUrls : Nat → Option String) : Nat → Option String :=
  fun id =>
    match newUrls id with
    | some u => some u
    | none => prev id

/-- One run of fetchAvatarUrls (lines 46-59) applied to the state current when
its setAvatarUrls call lands.  A rejected fetch or a non-ok response only logs
(lines 49 and 56-58) and changes nothing; a successful response merges newUrls
over the previous cache (line 55), new entries shadowing old ones. -/
def runAvatarFetch (s : AppState) (o : AvatarOutcome) : AppState :=
  match o with
  | AvatarOutcome.reject _ => s
  | AvatarOutcome.respond ok body =>
      if ok then { s with avatarUrls := mergeUrls s.avatarUrls (buildNewUrls body.data) }
      else s

/-- handleUserClick (lines 61-65): select the user, hide the dropdown, clear
the query. -/
def handleUserClick (s : AppState) (user : RobloxUser) : AppState :=
  { s with selectedUser := some user, showDropdown := false, query := "" }

/-- The onOpenChange handler at line 181 when the dialog closes: clear the
selection and nothing else. -/
def closeModal (s : AppState) : AppState :=
  { s with selectedUser := none }

/-- The search-button click at line 126: setShowDropdown(true). -/
def searchButtonClick (s : AppState) : AppState :=
  { s with showDropdown := true }

/-- The outside-click handler at lines 36-40: setShowDropdown(false). -/
def clickOutside (s : AppState) : AppState :=
  { s with showDropdown := false }

/-- The condition under which the dropdown is rendered (line 132):
showDropdown and a non-empty query. -/
def dropdownVisible (s : AppState) : Bool :=
  s.showDropdown && decide (0 < s.query.length)

/-- The timer the effect at lines 108-109 arms after an edit: searchUsers for
the new query, due 300 ms from now. -/
structure ScheduledSearch where
  fireAt : Nat
  query : String
deriving DecidableEq

/-- An input edit at a given time: onChange at line 120 stores the new query,
and the effect at lines 108-110 clears the previous timer and arms a new one
300 ms out for the new query.  No other state changes at edit time. -/
def onEdit (s : AppState) (newQuery : String) (now : Nat) : AppState × ScheduledSearch :=
  ({ s with query := newQuery }, { fireAt := now + 300, query := newQuery })

/-- Given chronological edits as (time, query) pairs, the queries whose timer
actually fires: an edit's timer is cleared by the effect cleanup (line 109)
when the next edit arrives strictly before the 300 ms deadline, and the last
edit's timer always fires once input goes quiet. -/
def firedQueries : List (Nat × String) → List String
  | [] => []
  | (_, q) :: [] => [q]
  | (t1, q1) :: (t2, q2) :: rest =>
      if t1 + 300 ≤ t2 then q1 :: firedQueries ((t2, q2) :: rest)
      else firedQueries ((t2, q2) :: rest)

/-- The search requests an edit sequence puts on the wire: each fired timer
runs searchUsers, which issues a request only past the line-69 length guard. -/
def issuedRequests (edits : List (Nat × String)) : List String :=
  (firedQueries edits).filterMap searchRequestOf

/-- True when every edit arrives strictly within 300 ms of the previous one. -/
def within300 : List (Nat × String) → Bool
  | [] => true
  | _ :: [] => true
  | (t1, _) :: (t2, q2) :: rest => decide (t2 < t1 + 300) && within300 ((t2, q2) :: rest)

/-- One user-visible transition of the widget with each search cycle taken
atomically: a search step lands a whole run of searchUsers (dispatch and
settle together), so this relation covers exactly the executions in which
every response arrives before the next event.  AsyncStep further below splits
the two halves to represent overlapping in-flight fetches. -/
inductive Step : AppState → AppState → Prop where
  | edit (s : AppState) (q : String) (now : Nat) : Step s (onEdit s q now).1
  | search (s : AppState) (q : String) (o : SearchOutcome) : Step s (runSearch q s o).state
  | avatar (s : AppState) (o : AvatarOutcome) : Step s (runAvatarFetch s o)
  | select (s : AppState) (u : RobloxUser) : Step s (handleUserClick s u)
  | close (s : AppState) : Step s (closeModal s)
  | button (s : AppState) : Step s (searchButtonClick s)
  | outside (s : AppState) : Step s (clickOutside s)

/-- States the widget can reach from its initial render. -/
inductive Reachable : AppState → Prop where
  | init : Reachable initState
  | step : ∀ {s s' : AppState}, Reachable s → Step s s' → Reachable s'

/-! Concrete example values used by witnesses and counterexamples. -/

/-- The example user of spec section 8. -/
def userEx : RobloxUser where
  previousUsernames := []
  hasVerifiedBadge := true
  id := 1
  name := "roblox"
  displayName := "Roblox"

/-- State after typing "ab" into the fresh widget. -/
def stateAfterAB : AppState := (onEdit initState "ab" 0).1

/-- State after the debounced search for "ab" succeeds with one user. -/
def stateWithResults : AppState :=
  (runSearch "ab" stateAfterAB (SearchOutcome.respond 200 ⟨some [userEx]⟩)).state

/-- State right after shrinking the query from "ab" to "a" at time 1000,
before the newly armed timer fires. -/
def stateAfterShrink : AppState := (onEdit stateWithResults "a" 1000).1

/-- The outcomes the catch block at lines 98-102 handles: a rejected fetch or
a non-2xx response, which line 89 turns into a throw. -/
def searchFailed : SearchOutcome → Prop
  | SearchOutcome.reject _ => True
  | SearchOutcome.respond status _ => httpOk status = false

/-- The message a failed cycle stores: the thrown HTTP error text for a
non-2xx status (line 89), otherwise the message derived from the rejection
(line 99). -/
def failureMessage : SearchOutcome → String
  | SearchOutcome.reject e => jsErrorMessage e
  | SearchOutcome.respond status _ => "HTTP error! status: " ++ toString status

/-- Claim C8: selecting a displayed profile sets selectedUser to exactly that
profile, resets queryText to the empty string, and hides the dropdown. -/
theorem select_user_updates (s : AppState) (u : RobloxUser) (_h : u ∈ s.users) :
    (handleUserClick s u).selectedUser = some u ∧
    (handleUserClick s u).query = "" ∧
    (handleUserClick s u).showDropdown = false ∧
    dropdownVisible (handleUserClick s u) = false :=
  ⟨rfl, rfl, rfl, rfl⟩

/-- Witness for select_user_updates: the populated example state. -/
theorem select_user_updates_witness :
    (handleUserClick stateWithResults userEx).selectedUser = some userEx ∧
    (handleUserClick stateWithResults userEx).query = "" ∧
    (handleUserClick stateWithResults userEx).showDropdown = false ∧
    dropdownVisible (handleUserClick stateWithResults userEx) = false :=
  select_user_updates stateWithResults userEx (by decide)

/-- Claim C9: closing the profile modal clears selectedUser and changes no
other state: query, results, error, loading flag, dropdown flag and the
avatar cache are all unchanged. -/
theorem close_modal_frame (s : AppState) :
    (closeModal s).selectedUser = none ∧
    (closeModal s).query = s.query ∧
    (closeModal s).users = s.users ∧
    (closeModal s).error = s.error ∧
    (closeModal s).isLoading = s.isLoading ∧
    (closeModal s).showDropdown = s.showDropdown ∧
    (closeModal s).avatarUrls = s.avatarUrls :=
  ⟨rfl, rfl, rfl, rfl, rfl, rfl, rfl⟩

/-- Claim C1 (amended): a failed search cycle stores the failure message in
errorMessage (non-empty in the non-2xx case), clears results, resets
isLoading, and leaves the dropdown visibility unchanged rather than forcing
it open. -/
theorem search_failure_state (q : String) (s : AppState) (o : SearchOutcome)
    (h2 : 2 ≤ q.length) (hf : searchFailed o) :
    (runSearch q s o).state.error = some (failureMessage o) ∧
    (runSearch q s o).state.users = [] ∧
    (runSearch q s o).state.showDropdown = s.showDropdown ∧
    (runSearch q s o).state.isLoading = false ∧
    (∀ status body, o = SearchOutcome.respond status body → failureMessage o ≠ "") := by
  have hq : ¬ q.length < 2 := by omega
  cases o with
  | reject e =>
      refine ⟨?_, ?_, ?_, ?_, ?_⟩
      · simp [runSearch, hq, failureMessage]
      · simp [runSearch, hq]
      · simp [runSearch, hq]
      · simp [runSearch, hq]
      · intro status body heq
        exact absurd heq (by simp)
  | respond status body =>
      have hok : httpOk status = false := hf
      have hmsg : ("HTTP error! status: " ++ toString status) ≠ "" := by
        intro hcontra
        have hlen := congrArg String.length hcontra
        rw [String.length_append] at hlen
        have h20 : ("HTTP error! status: " : String).length = 20 := rfl
        have h0 : ("" : String).length = 0 := rfl
        rw [h20, h0] at hlen
        omega
      refine ⟨?_, ?_, ?_, ?_, ?_⟩
      · simp [runSearch, hq, hok, failureMessage]
      · simp [runSearch, hq, hok]
      · simp [runSearch, hq, hok]
      · simp [runSearch, hq, hok]
      · intro status2 body2 heq
        exact hmsg

/-- Witness for search_failure_state: a 500 response to the query "ab". -/
theorem search_failure_state_witness :
    (runSearch "ab" initState (SearchOutcome.respond 500 ⟨none⟩)).state.error =
      some (failureMessage (SearchOutcome.respond 500 ⟨none⟩)) ∧
    (runSearch "ab" initState (SearchOutcome.respond 500 ⟨none⟩)).state.users = [] :=
  ⟨(search_failure_state "ab" initState (SearchOutcome.respond 500 ⟨none⟩) (by decide) rfl).1,
   (search_failure_state "ab" initState (SearchOutcome.respond 500 ⟨none⟩) (by decide) rfl).2.1⟩

/-- Claim C1 counterexample: from a reachable state where the dropdown is
hidden, a failed search cycle stores a non-empty error and clears results but
leaves the dropdown hidden, so the error is not presented. -/
theorem search_failure_dropdown_stays_hidden :
    stateAfterAB.showDropdown = false ∧
    (runSearch "ab" stateAfterAB (SearchOutcome.respond 500 ⟨none⟩)).state.error.isSome = true ∧
    (runSearch "ab" stateAfterAB (SearchOutcome.respond 500 ⟨none⟩)).state.users = [] ∧
    (runSearch "ab" stateAfterAB (SearchOutcome.respond 500 ⟨none⟩)).state.showDropdown = false ∧
    dropdownVisible (runSearch "ab" stateAfterAB (SearchOutcome.respond 500 ⟨none⟩)).state = false :=
  ⟨rfl, rfl, rfl, rfl, rfl⟩

/-- Claim C2 (amended): when the captured query is shorter than 2 characters
the debounced cycle clears results and errorMessage and issues no request;
the cycle is only armed 300 ms after the edit, so the clearing happens at
timer fire, not at edit time. -/
theorem short_query_cycle (q : String) (s s0 : AppState) (o : SearchOutcome) (now : Nat)
    (h : q.length < 2) :
    (onEdit s0 q now).2.fireAt = now + 300 ∧
    (onEdit s0 q now).2.query = q ∧
    (runSearch q s o).state.users = [] ∧
    (runSearch q s o).state.error = none ∧
    (runSearch q s o).request = none ∧
    (runSearch q s o).avatarRequest = none := by
  refine ⟨rfl, rfl, ?_, ?_, ?_, ?_⟩ <;> simp [runSearch, h]

/-- Witness for short_query_cycle: the one-character query "a". -/
theorem short_query_cycle_witness :
    (runSearch "a" initState (SearchOutcome.reject JsError.nonError)).state.users = [] ∧
    (runSearch "a" initState (SearchOutcome.reject JsError.nonError)).request = none :=
  ⟨(short_query_cycle "a" initState initState (SearchOutcome.reject JsError.nonError) 0 (by decide)).2.2.1,
   (short_query_cycle "a" initState initState (SearchOutcome.reject JsError.nonError) 0 (by decide)).2.2.2.2.1⟩

/-- Claim C2 counterexample: shrinking the query from "ab" to "a" does not
clear the results at edit time; the clearing cycle is armed for 300 ms after
the edit. -/
theorem short_query_not_cleared_at_edit :
    stateAfterShrink.query.length < 2 ∧
    stateAfterShrink.users = [userEx] ∧
    (onEdit stateWithResults "a" 1000).2.fireAt = 1300 :=
  ⟨by decide, rfl, rfl⟩

/-- An ASCII whitespace character: space, tab, line feed or carriage return. -/
def isWhitespaceChar (c : Char) : Bool :=
  c.toNat = 32 || c.toNat = 9 || c.toNat = 10 || c.toNat = 13

/-- Remove leading and trailing whitespace from a character list. -/
def trimChars (cs : List Char) : List Char :=
  ((cs.dropWhile isWhitespaceChar).reverse.dropWhile isWhitespaceChar).reverse

/-- Modelled from the spec: the request URL as section 4.1 words it, with the
query trimmed of surrounding whitespace before URL-encoding.  Defined only to
compare against searchUrl, which is taken from the code at line 80. -/
def specSearchUrl (q : String) : String :=
  "/api/v1/users/search?keyword=" ++ encodeURIComponent (String.mk (trimChars q.data)) ++ "&limit=10"

/-- Claim C4 (amended): every dispatched search issues a GET whose keyword is
the raw query URL-encoded, with the fixed limit 10; the code applies no
trimming. -/
theorem search_request_url (q : String) (s : AppState) (o : SearchOutcome)
    (h : 2 ≤ q.length) :
    (runSearch q s o).request =
      some ("/api/v1/users/search?keyword=" ++ encodeURIComponent q ++ "&limit=10") := by
  have hq : ¬ q.length < 2 := by omega
  cases o with
  | reject e => simp [runSearch, hq, searchUrl]
  | respond status body =>
      cases hok : httpOk status <;> simp [runSearch, hq, hok, searchUrl]

/-- Witness for search_request_url: the query "ro". -/
theorem search_request_url_witness :
    (runSearch "ro" initState (SearchOutcome.respond 200 ⟨none⟩)).request =
      some ("/api/v1/users/search?keyword=" ++ encodeURIComponent "ro" ++ "&limit=10") :=
  search_request_url "ro" initState (SearchOutcome.respond 200 ⟨none⟩) (by decide)

/-- Claim C4 counterexample: for the query "ro " (trailing space) the code
requests the untrimmed keyword ro%20, while the claim describes the trimmed
keyword ro. -/
theorem search_request_not_trimmed :
    (runSearch "ro " initState (SearchOutcome.respond 200 ⟨none⟩)).request = some (searchUrl "ro ") ∧
    searchUrl "ro " = "/api/v1/users/search?keyword=ro%20&limit=10" ∧
    specSearchUrl "ro " = "/api/v1/users/search?keyword=ro&limit=10" ∧
    searchUrl "ro " ≠ specSearchUrl "ro " := by
  refine ⟨rfl, by decide, by decide, by decide⟩

/-- The last imageUrl the thumbnail response lists for a given id, found by
scanning the response back to front. -/
def lastUrlFor (items : List ThumbItem) (id : Nat) : Option String :=
  (items.reverse.find? (fun it => it.targetId == id)).map (fun it => it.imageUrl)

/-- Appending one element to the scanned list only matters when the prefix has
no hit. -/
theorem find_append_singleton {α : Type} (p : α → Bool) (a : α) (l : List α) :
    (l ++ [a]).find? p =
      match l.find? p with
      | some x => some x
      | none => if p a then some a else none := by
  induction l with
  | nil => cases hp : p a <;> simp [List.find?, hp]
  | cons b t ih =>
      cases hb : p b <;> simp [List.find?, hb, ih]

/-- The reduce at lines 51-54 keeps, for every id, the last entry of the
response that names it; ids the response never names fall through to the
accumulator. -/
theorem buildNewUrls_loop (items : List ThumbItem) (acc : Nat → Option String) (id : Nat) :
    List.foldl updEntry acc items id =
      match lastUrlFor items id with
      | some u => some u
      | none => acc id := by
  induction items generalizing acc with
  | nil => rfl
  | cons it its ih =>
      rw [List.foldl_cons, ih]
      have hsplit : lastUrlFor (it :: its) id =
          match lastUrlFor its id with
          | some u => some u
          | none => if it.targetId == id then some it.imageUrl else none := by
        unfold lastUrlFor
        rw [List.reverse_cons, find_append_singleton]
        cases its.reverse.find? (fun x => x.targetId == id) with
        | none => cases it.targetId == id <;> simp
        | some x => simp
      rw [hsplit]
      cases h1 : lastUrlFor its id with
      | some u => simp
      | none =>
          cases hbeq : it.targetId == id with
          | true =>
              have heq : id = it.targetId := (eq_of_beq hbeq).symm
              simp [updEntry, heq]
          | false =>
              have hne : ¬ (id = it.targetId) := by
                intro hcontra
                rw [hcontra] at hbeq
                simp at hbeq
              simp [updEntry, hne]

/-- Claim C5: the avatar cache is monotonically additive.  A successful fetch
merges every returned pair into the cache, the last entry for an id winning,
and leaves every id the response does not name unchanged; a rejected fetch or
a non-ok response leaves the cache entirely unchanged; and once an id maps to
a URL, no avatar outcome ever removes the mapping. -/
theorem avatar_cache_additive (s : AppState) (items : List ThumbItem) (id : Nat) :
    (∀ u, lastUrlFor items id = some u →
      (runAvatarFetch s (AvatarOutcome.respond true ⟨items⟩)).avatarUrls id = some u) ∧
    (lastUrlFor items id = none →
      (runAvatarFetch s (AvatarOutcome.respond true ⟨items⟩)).avatarUrls id = s.avatarUrls id) ∧
    (∀ e, runAvatarFetch s (AvatarOutcome.reject e) = s) ∧
    (∀ body, runAvatarFetch s (AvatarOutcome.respond false body) = s) ∧
    (∀ o u, s.avatarUrls id = some u → ∃ v, (runAvatarFetch s o).avatarUrls id = some v) := by
  have hbuild := buildNewUrls_loop items (fun _ => none) id
  refine ⟨?_, ?_, fun e => rfl, fun body => rfl, ?_⟩
  · intro u hu
    show mergeUrls s.avatarUrls (buildNewUrls items) id = some u
    have hb : buildNewUrls items id = some u := by
      show List.foldl updEntry (fun _ => none) items id = some u
      rw [hbuild, hu]
    unfold mergeUrls
    rw [hb]
  · intro hu
    show mergeUrls s.avatarUrls (buildNewUrls items) id = s.avatarUrls id
    have hb : buildNewUrls items id = none := by
      show List.foldl updEntry (fun _ => none) items id = none
      rw [hbuild, hu]
    unfold mergeUrls
    rw [hb]
  · intro o u hu
    cases o with
    | reject e => exact ⟨u, hu⟩
    | respond ok body =>
        cases ok with
        | false => exact ⟨u, hu⟩
        | true =>
            cases hb : buildNewUrls body.data id with
            | some v =>
                refine ⟨v, ?_⟩
                show mergeUrls s.avatarUrls (buildNewUrls body.data) id = some v
                unfold mergeUrls
                rw [hb]
            | none =>
                refine ⟨u, ?_⟩
                show mergeUrls s.avatarUrls (buildNewUrls body.data) id = some u
                unfold mergeUrls
                rw [hb]
                exact hu

/-- A thumbnail response naming id 1 twice, used by the C5 witness. -/
def thumbEx : List ThumbItem :=
  [{ targetId := 1, state := "Completed", imageUrl := "urlA" },
   { targetId := 1, state := "Completed", imageUrl := "urlB" }]

/-- Witness for avatar_cache_additive: the duplicate response keeps the later
URL for id 1 and a rejected fetch changes nothing. -/
theorem avatar_cache_additive_witness :
    (runAvatarFetch stateWithResults (AvatarOutcome.respond true ⟨thumbEx⟩)).avatarUrls 1 =
      some "urlB" ∧
    runAvatarFetch stateWithResults (AvatarOutcome.reject JsError.nonError) = stateWithResults :=
  ⟨(avatar_cache_additive stateWithResults thumbEx 1).1 "urlB" (by decide),
   (avatar_cache_additive stateWithResults thumbEx 1).2.2.1 JsError.nonError⟩

/-- Claim C6: a successful search response carrying k > 0 profiles replaces
results by exactly those k profiles in response order, shows the dropdown in
the populated state, and hands exactly the k ids to the avatar fetch in one
batch; when the data field is absent, results become empty and no avatar
request is issued. -/
theorem search_success_populates (s : AppState) (l : List RobloxUser) (status : Nat)
    (h2 : 2 ≤ s.query.length) (hok : httpOk status = true) (hne : l ≠ []) :
    (runSearch s.query s (SearchOutcome.respond status ⟨some l⟩)).state.users = l ∧
    (runSearch s.query s (SearchOutcome.respond status ⟨some l⟩)).state.showDropdown = true ∧
    (runSearch s.query s (SearchOutcome.respond status ⟨some l⟩)).state.error = none ∧
    (runSearch s.query s (SearchOutcome.respond status ⟨some l⟩)).state.isLoading = false ∧
    dropdownVisible (runSearch s.query s (SearchOutcome.respond status ⟨some l⟩)).state = true ∧
    (runSearch s.query s (SearchOutcome.respond status ⟨some l⟩)).avatarRequest =
      some (l.map (fun u => u.id)) ∧
    (runSearch s.query s (SearchOutcome.respond status ⟨none⟩)).state.users = [] ∧
    (runSearch s.query s (SearchOutcome.respond status ⟨none⟩)).avatarRequest = none := by
  have hq : ¬ s.query.length < 2 := by omega
  have hlen : 0 < l.length := List.length_pos.mpr hne
  refine ⟨?_, ?_, ?_, ?_, ?_, ?_, ?_, ?_⟩
  · simp [runSearch, hq, hok]
  · simp [runSearch, hq, hok]
  · simp [runSearch, hq, hok]
  · simp [runSearch, hq, hok]
  · simp [runSearch, hq, hok, dropdownVisible]
    omega
  · simp [runSearch, hq, hok, hlen]
  · simp [runSearch, hq, hok]
  · simp [runSearch, hq, hok]

/-- Witness for search_success_populates: one result for the query "ab". -/
theorem search_success_populates_witness :
    (runSearch stateAfterAB.query stateAfterAB
        (SearchOutcome.respond 200 ⟨some [userEx]⟩)).state.users = [userEx] ∧
    (runSearch stateAfterAB.query stateAfterAB
        (SearchOutcome.respond 200 ⟨some [userEx]⟩)).avatarRequest =
      some ([userEx].map (fun u => u.id)) := by
  have h := search_success_populates stateAfterAB [userEx] 200 (by decide) (by decide) (by decide)
  exact ⟨h.1, h.2.2.2.2.2.1⟩

/-- The query of the last edit of a sequence (empty for no edits). -/
def lastQueryOf (edits : List (Nat × String)) : String :=
  (edits.getLast?.map Prod.snd).getD ""

/-- The request a search cycle issues is determined by the captured query
through the line-69 guard. -/
theorem runSearch_request (q : String) (s : AppState) (o : SearchOutcome) :
    (runSearch q s o).request = searchRequestOf q := by
  by_cases hq : q.length < 2
  · simp [runSearch, searchRequestOf, hq]
  · cases o with
    | reject e => simp [runSearch, searchRequestOf, hq]
    | respond status body =>
        cases hok : httpOk status <;> simp [runSearch, searchRequestOf, hq, hok]

/-- When every edit lands within 300 ms of the previous one, every timer but
the last is cleared before firing, so only the final query fires. -/
theorem firedQueries_rapid (edits : List (Nat × String)) (h : edits ≠ [])
    (hw : within300 edits = true) :
    firedQueries edits = [lastQueryOf edits] := by
  induction edits with
  | nil => exact absurd rfl h
  | cons e rest ih =>
      cases rest with
      | nil =>
          obtain ⟨t, q⟩ := e
          simp [firedQueries, lastQueryOf]
      | cons e2 rest2 =>
          obtain ⟨t1, q1⟩ := e
          obtain ⟨t2, q2⟩ := e2
          simp only [within300, Bool.and_eq_true, decide_eq_true_eq] at hw
          have hnot : ¬ (t1 + 300 ≤ t2) := by omega
          have hrec := ih (by simp) hw.2
          simp only [firedQueries, if_neg hnot]
          rw [hrec]
          simp [lastQueryOf]

/-- Claim C3 (amended): for a non-empty sequence of edits each arriving within
300 ms of the previous one, only the final edit's timer fires, and at most one
request goes out: exactly one, with the final query as its keyword, when the
final query is at least 2 characters long, and none otherwise. -/
theorem debounce_collapses_edits (edits : List (Nat × String)) (h : edits ≠ [])
    (hw : within300 edits = true) :
    firedQueries edits = [lastQueryOf edits] ∧
    issuedRequests edits = (searchRequestOf (lastQueryOf edits)).toList ∧
    (∀ s o, (runSearch (lastQueryOf edits) s o).request = searchRequestOf (lastQueryOf edits)) := by
  have hf := firedQueries_rapid edits h hw
  refine ⟨hf, ?_, fun s o => runSearch_request _ s o⟩
  rw [issuedRequests, hf]
  cases hreq : searchRequestOf (lastQueryOf edits) <;> simp [List.filterMap, hreq]

/-- Witness for debounce_collapses_edits: the edits r then ro, 100 ms apart,
produce one request for ro. -/
theorem debounce_collapses_edits_witness :
    firedQueries [(0, "r"), (100, "ro")] = ["ro"] ∧
    issuedRequests [(0, "r"), (100, "ro")] = [searchUrl "ro"] := by
  have h := debounce_collapses_edits [(0, "r"), (100, "ro")] (by simp) (by decide)
  refine ⟨?_, ?_⟩
  · rw [h.1]; rfl
  · rw [h.2.1]; rfl

/-- Claim C3 counterexample: two rapid edits whose final query is the single
character a issue no request at all, not exactly one. -/
theorem debounce_no_request_for_short_final :
    within300 [(0, "ab"), (100, "a")] = true ∧
    firedQueries [(0, "ab"), (100, "a")] = ["a"] ∧
    issuedRequests [(0, "ab"), (100, "a")] = [] := by
  refine ⟨by decide, by decide, by decide⟩

/-- Claim C7 (amended): the rendered dropdown condition of line 132 is true
only while the query is non-empty, and a search cycle whose captured query is
shorter than 2 characters clears results and error; the clearing only happens
when that debounced cycle runs, so between an edit and its cycle a short query
can coexist with stale results. -/
theorem dropdown_query_invariant (s : AppState) (o : SearchOutcome) :
    (dropdownVisible s = true → s.query ≠ "") ∧
    (s.query.length < 2 →
      (runSearch s.query s o).state.users = [] ∧
      (runSearch s.query s o).state.error = none) := by
  constructor
  · intro hv hempty
    simp only [dropdownVisible, Bool.and_eq_true, decide_eq_true_eq] at hv
    have hlen : 0 < s.query.length := hv.2
    rw [hempty] at hlen
    have h0 : ("" : String).length = 0 := rfl
    omega
  · intro hshort
    constructor <;> simp [runSearch, hshort]

/-- Witness for dropdown_query_invariant: the populated example state. -/
theorem dropdown_query_invariant_witness :
    stateWithResults.query ≠ "" :=
  (dropdown_query_invariant stateWithResults (SearchOutcome.reject JsError.nonError)).1 (by decide)

/-- Claim C7 counterexample: after results for "ab" arrive and the query is
edited down to "a", the widget is in a reachable state whose query is shorter
than 2 characters while results are still present. -/
theorem short_query_stale_results_reachable :
    Reachable stateAfterShrink ∧
    stateAfterShrink.query.length < 2 ∧
    stateAfterShrink.users ≠ [] := by
  refine ⟨?_, by decide, by decide⟩
  have h1 : Reachable stateAfterAB :=
    Reachable.step Reachable.init (Step.edit initState "ab" 0)
  have h2 : Reachable stateWithResults :=
    Reachable.step h1 (Step.search stateAfterAB "ab" (SearchOutcome.respond 200 ⟨some [userEx]⟩))
  exact Reachable.step h2 (Step.edit stateWithResults "a" 1000)

/-- The dispatch-time updates of one searchUsers run (lines 75-76), landing
as soon as the debounced callback passes the line-69 guard: isLoading becomes
true and any previous error is cleared, before the fetch suspends. -/
def dispatchSearch (s : AppState) : AppState :=
  { s with isLoading := true, error := none }

/-- The guard branch of searchUsers (lines 69-73), synchronous at timer fire
for a captured query shorter than 2 characters: users and error are cleared
and the run ends without dispatching a fetch. -/
def shortQueryCycle (s : AppState) : AppState :=
  { s with users := [], error := none }

/-- The settle-time updates of one searchUsers run (lines 88-105), landing
when its own fetch resolves, possibly after other runs have dispatched or
settled in between.  A failure stores the derived message and clears users
(lines 98-102); a success stores the response profiles and shows the dropdown
(lines 92-97) but does not touch error, whose clearing happened already at
dispatch time; the finally block resets isLoading (line 104).  The id batch a
success hands to fetchAvatarUrls is the avatarRequest field of runSearch. -/
def settleSearch (s : AppState) (o : SearchOutcome) : AppState :=
  match o with
  | SearchOutcome.reject e =>
      { s with error := some (jsErrorMessage e), users := [], isLoading := false }
  | SearchOutcome.respond status body =>
      if httpOk status then
        { s with users := body.data.getD [], showDropdown := true, isLoading := false }
      else
        { s with error := some ("HTTP error! status: " ++ toString status), users := [],
                 isLoading := false }

/-- One user-visible transition at the granularity of single event-loop
turns: unlike Step, the dispatch and the settle of a searchUsers run are
separate transitions, because the effect cleanup at line 109 clears only the
debounce timer and never aborts an in-flight fetch, so the settles of
overlapping runs can interleave with later dispatches and with each other. -/
inductive AsyncStep : AppState → AppState → Prop where
  | edit (s : AppState) (q : String) (now : Nat) : AsyncStep s (onEdit s q now).1
  | guard (s : AppState) : AsyncStep s (shortQueryCycle s)
  | dispatch (s : AppState) : AsyncStep s (dispatchSearch s)
  | settle (s : AppState) (o : SearchOutcome) : AsyncStep s (settleSearch s o)
  | avatar (s : AppState) (o : AvatarOutcome) : AsyncStep s (runAvatarFetch s o)
  | select (s : AppState) (u : RobloxUser) : AsyncStep s (handleUserClick s u)
  | close (s : AppState) : AsyncStep s (closeModal s)
  | button (s : AppState) : AsyncStep s (searchButtonClick s)
  | outside (s : AppState) : AsyncStep s (clickOutside s)

/-- States the widget can reach when in-flight searches may overlap. -/
inductive AsyncReachable : AppState → Prop where
  | init : AsyncReachable initState
  | step : ∀ {s s' : AppState}, AsyncReachable s → AsyncStep s s' → AsyncReachable s'

/-- The state of this schedule: type "ab" (t = 0), its timer dispatches run A
(t = 300), type "abc" (t = 400), its timer dispatches run B (t = 700), run B
settles first with a 500, and run A's late 200 carrying one profile lands
last -- every step an event the real program can execute in this order. -/
def raceState : AppState :=
  settleSearch
    (settleSearch
      (dispatchSearch (onEdit (dispatchSearch stateAfterAB) "abc" 400).1)
      (SearchOutcome.respond 500 ⟨none⟩))
    (SearchOutcome.respond 200 ⟨some [userEx]⟩)

/-- Past the guard, one atomic runSearch cycle is exactly its dispatch
followed immediately by its own settle. -/
theorem runSearch_eq_dispatch_settle (q : String) (s : AppState) (o : SearchOutcome)
    (h : 2 ≤ q.length) :
    (runSearch q s o).state = settleSearch (dispatchSearch s) o := by
  have hq : ¬ q.length < 2 := by omega
  cases o with
  | reject e => simp [runSearch, settleSearch, dispatchSearch, hq]
  | respond status body =>
      cases hok : httpOk status <;>
        simp [runSearch, settleSearch, dispatchSearch, hq, hok]

/-- Under atomic cycles (no overlapping in-flight fetches) a stored error
implies empty results in every reachable state. -/
theorem error_excludes_results_atomic (s : AppState) (h : Reachable s) :
    s.error.isSome = true → s.users = [] := by
  induction h with
  | init => intro _; rfl
  | step hr hstep ih =>
      cases hstep with
      | edit q now => intro he; exact ih he
      | search q o =>
          by_cases hq : q.length < 2
          · intro he
            simp [runSearch, hq] at he
          · cases o with
            | reject e => intro _; simp [runSearch, hq]
            | respond status body =>
                cases hok : httpOk status with
                | true => intro he; simp [runSearch, hq, hok] at he
                | false => intro _; simp [runSearch, hq, hok]
      | avatar o =>
          intro he
          cases o with
          | reject e => exact ih he
          | respond ok body => cases ok <;> exact ih he
      | select u => intro he; exact ih he
      | close => intro he; exact ih he
      | button => intro he; exact ih he
      | outside => intro he; exact ih he

/-- Claim C10 (amended): every settle that stores an error also clears the
results, but a successful settle stores results without touching the error,
whose clearing happened at dispatch time; a non-overlapped cycle is the
dispatch followed by its own settle, and over all states reachable through
such atomic cycles a stored error implies empty results.  With overlapping
in-flight fetches the invariant fails, as the counterexample shows. -/
theorem error_results_coherence (s : AppState) (o : SearchOutcome) :
    (searchFailed o →
      (settleSearch s o).error = some (failureMessage o) ∧ (settleSearch s o).users = []) ∧
    (∀ status body, httpOk status = true →
      (settleSearch s (SearchOutcome.respond status body)).error = s.error) ∧
    (dispatchSearch s).error = none ∧
    (∀ q, 2 ≤ q.length → (runSearch q s o).state = settleSearch (dispatchSearch s) o) ∧
    (∀ s2, Reachable s2 → s2.error.isSome = true → s2.users = []) := by
  refine ⟨?_, ?_, rfl, ?_, ?_⟩
  · intro hf
    cases o with
    | reject e => exact ⟨rfl, rfl⟩
    | respond status body =>
        have hok : httpOk status = false := hf
        constructor <;> simp [settleSearch, failureMessage, hok]
  · intro status body hok
    simp [settleSearch, hok]
  · intro q hq
    exact runSearch_eq_dispatch_settle q s o hq
  · exact fun s2 h2 => error_excludes_results_atomic s2 h2

/-- Witness for error_results_coherence: the 500 settle of the query "ab",
a success settle that leaves the error field alone, and the atomic cycle as
dispatch plus settle. -/
theorem error_results_coherence_witness :
    (settleSearch stateAfterAB (SearchOutcome.respond 500 ⟨none⟩)).error =
      some (failureMessage (SearchOutcome.respond 500 ⟨none⟩)) ∧
    (settleSearch stateAfterAB (SearchOutcome.respond 500 ⟨none⟩)).users = [] ∧
    (settleSearch stateAfterAB (SearchOutcome.respond 200 ⟨some [userEx]⟩)).error =
      stateAfterAB.error ∧
    (runSearch "ab" stateAfterAB (SearchOutcome.respond 500 ⟨none⟩)).state =
      settleSearch (dispatchSearch stateAfterAB) (SearchOutcome.respond 500 ⟨none⟩) :=
  ⟨((error_results_coherence stateAfterAB (SearchOutcome.respond 500 ⟨none⟩)).1 rfl).1,
   ((error_results_coherence stateAfterAB (SearchOutcome.respond 500 ⟨none⟩)).1 rfl).2,
   (error_results_coherence stateAfterAB
      (SearchOutcome.respond 500 ⟨none⟩)).2.1 200 ⟨some [userEx]⟩ (by decide),
   (error_results_coherence stateAfterAB
      (SearchOutcome.respond 500 ⟨none⟩)).2.2.2.1 "ab" (by decide)⟩

/-- Claim C10 counterexample: with overlapping un-aborted fetches, the late
200 of the first run lands its profile after the second run's 500 stored an
error, leaving a reachable state whose errorMessage is non-null while results
are non-empty. -/
theorem late_success_beside_error_reachable :
    AsyncReachable raceState ∧
    raceState.error = some ("HTTP error! status: " ++ toString 500) ∧
    raceState.error.isSome = true ∧
    raceState.users = [userEx] ∧
    raceState.users ≠ [] := by
  refine ⟨?_, rfl, rfl, rfl, by decide⟩
  have h1 : AsyncReachable stateAfterAB :=
    AsyncReachable.step AsyncReachable.init (AsyncStep.edit initState "ab" 0)
  have h2 : AsyncReachable (dispatchSearch stateAfterAB) :=
    AsyncReachable.step h1 (AsyncStep.dispatch stateAfterAB)
  have h3 : AsyncReachable (onEdit (dispatchSearch stateAfterAB) "abc" 400).1 :=
    AsyncReachable.step h2 (AsyncStep.edit (dispatchSearch stateAfterAB) "abc" 400)
  have h4 : AsyncReachable
      (dispatchSearch (onEdit (dispatchSearch stateAfterAB) "abc" 400).1) :=
    AsyncReachable.step h3
      (AsyncStep.dispatch (onEdit (dispatchSearch stateAfterAB) "abc" 400).1)
  have h5 : AsyncReachable
      (settleSearch (dispatchSearch (onEdit (dispatchSearch stateAfterAB) "abc" 400).1)
        (SearchOutcome.respond 500 ⟨none⟩)) :=
    AsyncReachable.step h4
      (AsyncStep.settle (dispatchSearch (onEdit (dispatchSearch stateAfterAB) "abc" 400).1)
        (SearchOutcome.respond 500 ⟨none⟩))
  exact AsyncReachable.step h5
    (AsyncStep.settle
      (settleSearch (dispatchSearch (onEdit (dispatchSearch stateAfterAB) "abc" 400).1)
        (SearchOutcome.respond 500 ⟨none⟩))
      (SearchOutcome.respond 200 ⟨some [userEx]⟩))
